import Mathlib

/-!
Verification development for the lenbrary asset server.

The definitions below are a shallow embedding of the asset ingestion
pipeline: the storage service (src/services/storage.service.ts), the
database service over better-sqlite3 (src/services/database.service.ts and
src/utils/database.ts), the EXIF parsing helpers of the image service
(src/services/image.service.ts) and the upload and delete route handlers
(src/routes/assets.routes.ts). External collaborators (node crypto, the
file-type sniffer, sharp, exiftool-vendored, the uuid generator, the clock
and the filesystem) are modelled as explicit inputs. Machine numbers are
modelled as rationals and byte buffers as lists of naturals.
-/

namespace Lenbrary

/-! ## Basic JS-level modelling -/

/-- A byte buffer, as a list of byte values. -/
abbrev Bytes := List Nat

/-- Calendar date components as produced by new Date() in StorageService. -/
structure CalDate where
  year : Nat
  month : Nat
  day : Nat
deriving DecidableEq, Repr

/-- String(n).padStart(2, "0") applied to month and day components. -/
def pad2 (n : Nat) : String :=
  if n < 10 then "0" ++ toString n else toString n

/-- path.join of two segments, modelled as slash concatenation. -/
def joinPath (a b : String) : String := a ++ "/" ++ b

/-- JS String.prototype.startsWith, on the character lists (kept
kernel-computable). -/
def startsWithStr (s pre : String) : Bool := List.isPrefixOf pre.toList s.toList

/-- The YYYY/MM/DD date partition built in StorageService.uploadFile and
StorageService.getThumbnailPath. -/
def datePath (d : CalDate) : String :=
  toString d.year ++ "/" ++ pad2 d.month ++ "/" ++ pad2 d.day

/-- Index of the last occurrence of a dot in a character list
(JS String.lastIndexOf of the dot character). -/
def lastDotIndex : List Char → Option Nat
  | [] => none
  | c :: cs =>
    match lastDotIndex cs with
    | some i => some (i + 1)
    | none => if c = '.' then some 0 else none

/-- StorageService.getExtension: the substring of the filename from its last
dot (dot included), and the empty string when the filename has no dot. -/
def getExtension (filename : String) : String :=
  match lastDotIndex filename.toList with
  | none => ""
  | some i => String.mk (filename.toList.drop i)

/-! ## StorageService -/

/-- Return record of StorageService.uploadFile. -/
structure UploadResult where
  storedName : String
  filePath : String
  originalPath : String
deriving DecidableEq, Repr

/-- The original-blob root under the upload directory. -/
def originalDir (uploadDir : String) : String := joinPath uploadDir "original"

/-- The thumbnail root under the upload directory. -/
def thumbnailDir (uploadDir : String) : String := joinPath uploadDir "thumbnails"

/-- StorageService.uploadFile: generated name is the uuid followed by the
extension taken from the client-supplied original filename; the file is
placed under original/YYYY/MM/DD. The write effect itself is tracked by the
upload pipeline state. -/
def uploadFile (uploadDir : String) (today : CalDate) (uuid : String)
    (originalname tempPath : String) : UploadResult :=
  let dir := joinPath (originalDir uploadDir) (datePath today)
  let storedName := uuid ++ getExtension originalname
  { storedName := storedName
    filePath := joinPath dir storedName
    originalPath := tempPath }

/-- StorageService.getThumbnailPath: thumbnails live under a parallel
date-partitioned root in a file named by the assetId argument followed by
the extension. -/
def getThumbnailPath (uploadDir : String) (today : CalDate) (assetId : Nat)
    (ext : String) : String :=
  joinPath (joinPath (thumbnailDir uploadDir) (datePath today))
    (toString assetId ++ ext)

/-! ## Filesystem model and StorageService.deleteFile -/

/-- Filesystem model: the stored file paths, plus the paths on which
unlinkSync raises an I/O error. -/
structure SimFS where
  files : List String
  failing : List String
deriving DecidableEq, Repr

/-- node:fs existsSync. -/
def existsSyncFS (fs : SimFS) (p : String) : Bool := decide (p ∈ fs.files)

/-- node:fs unlinkSync: removes the path or raises an error. -/
def unlinkSyncFS (fs : SimFS) (p : String) : Except Unit SimFS :=
  if p ∈ fs.failing then Except.error ()
  else Except.ok { fs with files := fs.files.filter (fun q => decide (q ≠ p)) }

/-- StorageService.deleteFile: inside a try block, if the path exists it is
unlinked and true is returned; any raised error is caught and logged; all
remaining paths fall through to returning false. -/
def deleteFile (fs : SimFS) (p : String) : SimFS × Bool :=
  if existsSyncFS fs p then
    match unlinkSyncFS fs p with
    | Except.ok fs2 => (fs2, true)
    | Except.error _ => (fs, false)
  else (fs, false)

/-! ## EXIF helpers of ImageService -/

/-- ImageService.formatExposureTime restricted to numeric tag values (a
string tag value already containing a slash is returned unchanged by the
source and is outside every claim). A falsy value (absent or zero) yields
undefined; a value below one is rendered as the fraction one over the
rounded reciprocal (Math.round); otherwise the decimal rendering of the
value is returned. -/
def formatExposureTime (value : Option ℚ) : Option String :=
  match value with
  | none => none
  | some q =>
    if q = 0 then none
    else if q < 1 then some ("1/" ++ toString (round q⁻¹))
    else some (toString q)

/-- Hemisphere reference letter of an embedded GPS block. -/
inductive GpsRef
  | N
  | S
  | E
  | W
deriving DecidableEq, Repr

/-- A degrees/minutes/seconds coordinate of an embedded GPS block. -/
structure DmsCoord where
  degrees : ℚ
  minutes : ℚ
  seconds : ℚ
deriving DecidableEq, Repr

/-- Modelled from the spec: exiftool-vendored, the library the image service
reads tags through, is not part of this repository; per spec section 4.4 it
decodes the embedded GPS block and converts degrees/minutes/seconds to
signed decimal degrees, negative for the S and W references. -/
def exifToolGpsDecimal (c : DmsCoord) (ref : GpsRef) : ℚ :=
  let dd := c.degrees + c.minutes / 60 + c.seconds / 3600
  match ref with
  | GpsRef.S => -dd
  | GpsRef.W => -dd
  | GpsRef.N => dd
  | GpsRef.E => dd

/-- ImageService.parseGPSCoordinate, numeric case: a falsy value (absent or
zero) yields undefined, any other number passes through unchanged. -/
def parseGPSCoordinate (value : Option ℚ) : Option ℚ :=
  match value with
  | none => none
  | some q => if q = 0 then none else some q

/-- JS truthiness of a numeric tag value. -/
def truthyNum (v : Option ℚ) : Bool :=
  match v with
  | none => false
  | some q => decide (q ≠ 0)

/-- GPS section of ImageService.parseExifToolTags: both coordinates are
stored only when both tag values are truthy, each through
parseGPSCoordinate. -/
def parseGpsTags (lat lon : Option ℚ) : Option ℚ × Option ℚ :=
  if truthyNum lat && truthyNum lon then (parseGPSCoordinate lat, parseGPSCoordinate lon)
  else (none, none)

/-! ## Video HDR classification -/

/-- Probed facts of the primary video stream that the HDR heuristic reads. -/
structure ProbedVideoStream where
  vendorTags : List String
  color_transfer : Option String
  color_primaries : Option String
  genericHdrTag : Bool
deriving DecidableEq, Repr

/-- Whether the stream discloses the given vendor marker. -/
def hasVendorTag (s : ProbedVideoStream) (t : String) : Bool := s.vendorTags.contains t

/-- Modelled from the spec: the video Media Processor is not under src of
this snapshot; only its schema (migration V00000007, table
asset_video_metadata with the is_hdr and hdr_format columns) and the upload
route kind dispatch are. Spec section 4.4 gives the priority-ordered HDR
heuristic: explicit vendor markers outrank transfer or primaries based
inference (the SMPTE high dynamic range transfer function or wide gamut
primaries give HDR10, the hybrid log-gamma transfer gives HLG); generic hdr
tags are the lowest-priority fallback; absence of all signals means not
HDR. -/
def classifyHdr (s : ProbedVideoStream) : Bool × Option String :=
  if hasVendorTag s "dolby vision" then (true, some "Dolby Vision")
  else if hasVendorTag s "hdr10+" then (true, some "HDR10+")
  else if s.color_transfer = some "smpte2084" || s.color_primaries = some "bt2020" then
    (true, some "HDR10")
  else if s.color_transfer = some "arib-std-b67" then (true, some "HLG")
  else if s.genericHdrTag then (true, some "HDR")
  else (false, none)

/-- A row of the asset_video_metadata table, restricted to the columns the
claims touch. -/
structure VideoMetadataRow where
  asset_id : Nat
  is_hdr : Bool
  hdr_format : Option String
deriving DecidableEq, Repr

/-- Modelled from the spec: the video metadata record the pipeline creates
for an accepted video upload, carrying the HDR classification. -/
def deriveVideoMetadata (assetId : Nat) (s : ProbedVideoStream) : VideoMetadataRow :=
  let hdr := classifyHdr s
  { asset_id := assetId, is_hdr := hdr.1, hdr_format := hdr.2 }

/-! ## Data model and database -/

/-- Coarse media kind of an asset. -/
inductive FileKind
  | image
  | video
deriving DecidableEq, Repr

/-- A row of the assets table. -/
structure Asset where
  id : Nat
  original_name : String
  stored_name : String
  file_path : String
  thumbnail_path : Option String
  mime_type : String
  file_type : FileKind
  file_size : Nat
  width : Option Nat
  height : Option Nat
  file_hash : Option String
  created_at : Nat
deriving DecidableEq, Repr

/-- A row of the asset_exif table, restricted to the columns the claims
touch. -/
structure ExifRow where
  asset_id : Nat
  exposure_time : Option String
  gps_latitude : Option ℚ
  gps_longitude : Option ℚ
deriving DecidableEq, Repr

/-- The sqlite database connection state: the two tables, the autoincrement
counter and the connection pragmas that matter here. -/
structure Db where
  assets : List Asset
  exifRows : List ExifRow
  nextId : Nat
  journal_mode : String
  foreign_keys : Bool
deriving DecidableEq, Repr

/-- src/utils/database.ts opens the database through better-sqlite3, whose
bundled sqlite build is compiled with SQLITE_DEFAULT_FOREIGN_KEYS=1, so
foreign-key enforcement starts ON for the connection without any pragma;
initialization then sets journal_mode=WAL and executes the schema. -/
def initDb : Db :=
  { assets := [], exifRows := [], nextId := 1, journal_mode := "WAL", foreign_keys := true }

/-- Column values passed to DatabaseService.createAsset (an Asset without
its surrogate id). -/
structure AssetInput where
  original_name : String
  stored_name : String
  file_path : String
  thumbnail_path : Option String
  mime_type : String
  file_type : FileKind
  file_size : Nat
  width : Option Nat
  height : Option Nat
  file_hash : Option String
  created_at : Nat
deriving DecidableEq, Repr

/-- The sqlite error kinds the embedding distinguishes. -/
inductive SqlError
  | constraintUnique
deriving DecidableEq, Repr

/-- DatabaseService.createAsset: INSERT INTO assets under the unique index
idx_assets_file_hash (file_hash migration): a second non-NULL file_hash
equal to the hash of an existing row raises the unique-constraint error;
NULL hashes never conflict. On success the freshly read-back row is
returned. -/
def createAsset (db : Db) (a : AssetInput) : Except SqlError (Db × Asset) :=
  let conflict :=
    match a.file_hash with
    | none => false
    | some h => db.assets.any (fun b => decide (b.file_hash = some h))
  if conflict then Except.error SqlError.constraintUnique
  else
    let row : Asset :=
      { id := db.nextId
        original_name := a.original_name
        stored_name := a.stored_name
        file_path := a.file_path
        thumbnail_path := a.thumbnail_path
        mime_type := a.mime_type
        file_type := a.file_type
        file_size := a.file_size
        width := a.width
        height := a.height
        file_hash := a.file_hash
        created_at := a.created_at }
    Except.ok ({ db with assets := db.assets ++ [row], nextId := db.nextId + 1 }, row)

/-- DatabaseService.getAssetById: SELECT by surrogate id, first match. -/
def getAssetById (db : Db) (id : Nat) : Option Asset :=
  db.assets.find? (fun a => decide (a.id = id))

/-- DatabaseService.getAssetByHash: SELECT WHERE file_hash equals the given
string; a NULL hash never matches. -/
def getAssetByHash (db : Db) (h : String) : Option Asset :=
  db.assets.find? (fun a => decide (a.file_hash = some h))

/-- DatabaseService.getExifByAssetId. -/
def getExifByAssetId (db : Db) (assetId : Nat) : Option ExifRow :=
  db.exifRows.find? (fun e => decide (e.asset_id = assetId))

/-- DatabaseService.createExif, reduced to the row append (a fresh asset id
cannot violate the unique constraint on asset_id). -/
def createExifRow (db : Db) (e : ExifRow) : Db :=
  { db with exifRows := db.exifRows ++ [e] }

/-- DatabaseService.deleteAsset: DELETE FROM assets WHERE id equals the
argument, reporting whether any row changed. Sqlite honors the ON DELETE
CASCADE clause declared on asset_exif in schema.sql only when the
connection has foreign key enforcement switched on. -/
def deleteAssetRows (db : Db) (id : Nat) : Db × Bool :=
  let remaining := db.assets.filter (fun a => decide (a.id ≠ id))
  let exifRest :=
    if db.foreign_keys then db.exifRows.filter (fun e => decide (e.asset_id ≠ id))
    else db.exifRows
  ({ db with assets := remaining, exifRows := exifRest },
   decide (remaining.length < db.assets.length))

/-! ## The upload pipeline -/

/-- Result of the file-type magic byte sniffer. -/
structure SniffedType where
  mime : String
  ext : String
deriving DecidableEq, Repr

/-- The multer file record the upload handler receives. -/
structure UploadFileReq where
  originalname : String
  bytes : Bytes
  size : Nat
  tempPath : String
deriving DecidableEq, Repr

/-- Fields the exif extraction stage can contribute, restricted to the
fields the claims touch. -/
structure ExifFields where
  exposure_time : Option String
  gps_latitude : Option ℚ
  gps_longitude : Option ℚ
deriving DecidableEq, Repr

/-- Behavior of the external collaborators on this request: the sha-256
digest (hashFn), the magic byte sniffer (sniffFn), the uuid generator, the
clock, the configured upload root, the outcome sharp would produce for the
stored image (dimensions when metadata probing and thumbnail generation
both succeed, absent when a stage throws) and the outcome of the exif
extraction. -/
structure UploadEnv where
  hashFn : Bytes → String
  sniffFn : Bytes → Option SniffedType
  uuid : String
  today : CalDate
  now : Nat
  uploadDir : String
  procOutcome : Option (Nat × Nat)
  exifOutcome : Option ExifFields

/-- Server-side mutable state: the database plus the files under the asset
storage root and the transient upload temp files. -/
structure ServerState where
  db : Db
  storedFiles : List String
  tempFiles : List String
deriving Repr

/-- Side effects a request performed, for stating the dedup short-circuit:
whether type sniffing ran, which blobs were written under the storage root,
how many database rows were inserted, and whether image derivation ran. -/
structure Effects where
  sniffed : Bool := false
  blobWrites : List String := []
  dbInserts : Nat := 0
  imageProcessed : Bool := false
deriving DecidableEq, Repr

/-- The empty effect record. -/
def noEffects : Effects := {}

/-- Response of the upload route, as the caller observes it. -/
inductive UploadResponse
  | created (asset : Asset) (exif : Option ExifRow)
  | duplicate (asset : Asset) (exif : Option ExifRow)
  | badRequest (msg : String)
  | internalError (msg : String)
deriving DecidableEq, Repr

/-- unlinkSync of the multer temp file. -/
def removeTemp (st : ServerState) (p : String) : ServerState :=
  { st with tempFiles := st.tempFiles.filter (fun q => decide (q ≠ p)) }

/-- The column values the upload handler assembles for createAsset. -/
def assetInputFor (env : UploadEnv) (file : UploadFileReq) (t : SniffedType)
    (uploadResult : UploadResult) (fileType : FileKind)
    (width height : Option Nat) (thumbnailPath : Option String) : AssetInput :=
  { original_name := file.originalname
    stored_name := uploadResult.storedName
    file_path := uploadResult.filePath
    thumbnail_path := thumbnailPath
    mime_type := t.mime
    file_type := fileType
    file_size := file.size
    width := width
    height := height
    file_hash := some (env.hashFn file.bytes)
    created_at := env.now }

/-- Final segment of the upload handler: insert the asset row, then for an
image run the exif extraction and store its row, and answer 201; a thrown
database error reaches the generic catch block, which finds the temp file
already unlinked and answers with the generic internal error, leaving the
placed blob in storage. -/
def insertAndRespond (env : UploadEnv) (st3 : ServerState) (file : UploadFileReq)
    (t : SniffedType) (uploadResult : UploadResult) (fileType : FileKind)
    (width height : Option Nat) (thumbnailPath : Option String) (eff : Effects) :
    ServerState × UploadResponse × Effects :=
  match createAsset st3.db (assetInputFor env file t uploadResult fileType width height thumbnailPath) with
  | Except.error _ =>
    (st3, UploadResponse.internalError "Failed to upload file", eff)
  | Except.ok (db2, createdAsset) =>
    match fileType, env.exifOutcome with
    | FileKind.image, some ef =>
      let row : ExifRow :=
        { asset_id := createdAsset.id
          exposure_time := ef.exposure_time
          gps_latitude := ef.gps_latitude
          gps_longitude := ef.gps_longitude }
      let db3 := createExifRow db2 row
      ({ st3 with db := db3 },
       UploadResponse.created createdAsset (getExifByAssetId db3 createdAsset.id),
       { eff with dbInserts := 2 })
    | _, _ =>
      ({ st3 with db := db2 },
       UploadResponse.created createdAsset none,
       { eff with dbInserts := 1 })

/-- Post-sniff segment of the upload handler (storage placement, temp
cleanup, image derivation with the thumbnail path computed for asset id 0,
then insertion). It is split from the lookup so that the duplicate-hash
race is expressible by running it on a state that has gained a conflicting
row after this request passed its lookup. -/
def uploadAfterSniff (env : UploadEnv) (st : ServerState) (file : UploadFileReq)
    (t : SniffedType) : ServerState × UploadResponse × Effects :=
  let uploadResult := uploadFile env.uploadDir env.today env.uuid file.originalname file.tempPath
  let st1 : ServerState := { st with storedFiles := st.storedFiles ++ [uploadResult.filePath] }
  let st2 := removeTemp st1 file.tempPath
  if startsWithStr t.mime "image/" then
    let thumbExt := if t.ext ≠ "" then "." ++ t.ext else ".jpg"
    let thumbPath := getThumbnailPath env.uploadDir env.today 0 thumbExt
    match env.procOutcome with
    | some wh =>
      insertAndRespond env
        { st2 with storedFiles := st2.storedFiles ++ [thumbPath] }
        file t uploadResult FileKind.image (some wh.1) (some wh.2) (some thumbPath)
        { sniffed := true, blobWrites := [uploadResult.filePath, thumbPath],
          imageProcessed := true }
    | none =>
      insertAndRespond env st2 file t uploadResult FileKind.image none none none
        { sniffed := true, blobWrites := [uploadResult.filePath], imageProcessed := true }
  else
    insertAndRespond env st2 file t uploadResult FileKind.video none none none
      { sniffed := true, blobWrites := [uploadResult.filePath] }

/-- The upload route handler (assets.routes.ts). A missing file raises
BadRequestError before the try block, so it propagates as a client error.
Inside the try block the hash is computed and looked up; a hit answers 200
with the existing asset, its exif row when it is an image, and the
duplicate flag, after unlinking the temp file and touching nothing else.
On a miss the type is sniffed; both sniffing rejections raise
BadRequestError inside the try block, so the catch replaces them with the
generic InternalServerError. -/
def uploadHandler (env : UploadEnv) (st : ServerState) (file? : Option UploadFileReq) :
    ServerState × UploadResponse × Effects :=
  match file? with
  | none => (st, UploadResponse.badRequest "No file uploaded", noEffects)
  | some file =>
    match getAssetByHash st.db (env.hashFn file.bytes) with
    | some existingAsset =>
      let st1 := removeTemp st file.tempPath
      let exif :=
        if existingAsset.file_type = FileKind.image then
          getExifByAssetId st1.db existingAsset.id
        else none
      (st1, UploadResponse.duplicate existingAsset exif, noEffects)
    | none =>
      match env.sniffFn file.bytes with
      | none =>
        (removeTemp st file.tempPath,
         UploadResponse.internalError "Failed to upload file",
         { sniffed := true })
      | some t =>
        if startsWithStr t.mime "image/" || startsWithStr t.mime "video/" then
          uploadAfterSniff env st file t
        else
          (removeTemp st file.tempPath,
           UploadResponse.internalError "Failed to upload file",
           { sniffed := true })

/-! ## The delete route -/

/-- Response of the delete route. -/
inductive DeleteResponse
  | success
  | notFound
  | internalError
deriving DecidableEq, Repr

/-- The delete route handler (assets.routes.ts): look the asset up, delete
its row, then best-effort delete the original blob and the thumbnail,
ignoring the boolean results of deleteFile. -/
def deleteAssetHandler (db : Db) (fs : SimFS) (id : Nat) : Db × SimFS × DeleteResponse :=
  match getAssetById db id with
  | none => (db, fs, DeleteResponse.notFound)
  | some asset =>
    let del := deleteAssetRows db id
    if del.2 then
      let fs2 := (deleteFile fs asset.file_path).1
      let fs3 :=
        match asset.thumbnail_path with
        | some tp => (deleteFile fs2 tp).1
        | none => fs2
      (del.1, fs3, DeleteResponse.success)
    else (db, fs, DeleteResponse.internalError)

/-! ## Helper lemmas -/

/-- find? over an appended singleton when the prefix holds no match. -/
theorem find?_append_singleton {α : Type} (p : α → Bool) (l : List α) (a : α)
    (hl : l.any p = false) (ha : p a = true) :
    (l ++ [a]).find? p = some a := by
  induction l with
  | nil => simp [List.find?, ha]
  | cons x xs ih =>
    simp only [List.any_cons, Bool.or_eq_false_iff] at hl
    simp only [List.cons_append, List.find?, hl.1]
    exact ih hl.2

/-! ## Claim C9: exposure time formatting -/

/-- Claim C9: every numeric exposure-time tag value that is nonzero and
strictly below one is stored as the fraction string one over the rounded
reciprocal. -/
theorem C9_exposure_time_fraction (q : ℚ) (hq0 : q ≠ 0) (hq1 : q < 1) :
    formatExposureTime (some q) = some ("1/" ++ toString (round q⁻¹)) := by
  simp only [formatExposureTime]
  rw [if_neg hq0, if_pos hq1]

/-- Claim C9 witness: an exposure time of 0.008 seconds is stored as the
string 1/125. -/
theorem C9_exposure_time_fraction_witness :
    formatExposureTime (some (1 / 125 : ℚ)) = some "1/125" := by
  have h := C9_exposure_time_fraction (1 / 125) (by norm_num) (by norm_num)
  have h125 : ((1 / 125 : ℚ))⁻¹ = ((125 : ℕ) : ℚ) := by norm_num
  rw [h, h125, round_natCast]
  decide

/-! ## Claim C8: GPS reference sign -/

/-- Claim C8: a stored GPS coordinate pair whose references are S or W is
negative and one whose references are N or E is non-negative, the library
having converted degrees, minutes and seconds to signed decimal degrees;
the parse stage passes both values through unchanged whenever both are
truthy. -/
theorem C8_gps_reference_sign (clat clon : DmsCoord) (rlat rlon : GpsRef)
    (h1 : 0 ≤ clat.degrees) (h2 : 0 ≤ clat.minutes) (h3 : 0 ≤ clat.seconds)
    (h4 : 0 ≤ clon.degrees) (h5 : 0 ≤ clon.minutes) (h6 : 0 ≤ clon.seconds)
    (hlat : exifToolGpsDecimal clat rlat ≠ 0)
    (hlon : exifToolGpsDecimal clon rlon ≠ 0) :
    parseGpsTags (some (exifToolGpsDecimal clat rlat)) (some (exifToolGpsDecimal clon rlon))
      = (some (exifToolGpsDecimal clat rlat), some (exifToolGpsDecimal clon rlon))
    ∧ (rlat = GpsRef.S → exifToolGpsDecimal clat rlat < 0)
    ∧ (rlon = GpsRef.W → exifToolGpsDecimal clon rlon < 0)
    ∧ (rlat = GpsRef.N → 0 ≤ exifToolGpsDecimal clat rlat)
    ∧ (rlon = GpsRef.E → 0 ≤ exifToolGpsDecimal clon rlon) := by
  have ddlat : 0 ≤ clat.degrees + clat.minutes / 60 + clat.seconds / 3600 := by
    have := div_nonneg h2 (by norm_num : (0:ℚ) ≤ 60)
    have := div_nonneg h3 (by norm_num : (0:ℚ) ≤ 3600)
    linarith
  have ddlon : 0 ≤ clon.degrees + clon.minutes / 60 + clon.seconds / 3600 := by
    have := div_nonneg h5 (by norm_num : (0:ℚ) ≤ 60)
    have := div_nonneg h6 (by norm_num : (0:ℚ) ≤ 3600)
    linarith
  refine ⟨?_, ?_, ?_, ?_, ?_⟩
  · simp [parseGpsTags, truthyNum, parseGPSCoordinate, hlat, hlon]
  · intro hS
    subst hS
    simp only [exifToolGpsDecimal] at hlat ⊢
    have : 0 < clat.degrees + clat.minutes / 60 + clat.seconds / 3600 :=
      lt_of_le_of_ne ddlat (by intro h; exact hlat (by rw [← h]; ring))
    linarith
  · intro hW
    subst hW
    simp only [exifToolGpsDecimal] at hlon ⊢
    have : 0 < clon.degrees + clon.minutes / 60 + clon.seconds / 3600 :=
      lt_of_le_of_ne ddlon (by intro h; exact hlon (by rw [← h]; ring))
    linarith
  · intro hN
    subst hN
    simpa only [exifToolGpsDecimal] using ddlat
  · intro hE
    subst hE
    simpa only [exifToolGpsDecimal] using ddlon

/-- Claim C8 witness: a latitude of 33 degrees 52 minutes S and a longitude
of 151 degrees 12 minutes E pass the guard and keep their signs. -/
theorem C8_gps_reference_sign_witness :
    parseGpsTags (some (exifToolGpsDecimal ⟨33, 52, 0⟩ GpsRef.S))
        (some (exifToolGpsDecimal ⟨151, 12, 30⟩ GpsRef.E))
      = (some (exifToolGpsDecimal ⟨33, 52, 0⟩ GpsRef.S),
         some (exifToolGpsDecimal ⟨151, 12, 30⟩ GpsRef.E))
    ∧ (GpsRef.S = GpsRef.S → exifToolGpsDecimal ⟨33, 52, 0⟩ GpsRef.S < 0)
    ∧ (GpsRef.E = GpsRef.W → exifToolGpsDecimal ⟨151, 12, 30⟩ GpsRef.E < 0)
    ∧ (GpsRef.S = GpsRef.N → 0 ≤ exifToolGpsDecimal ⟨33, 52, 0⟩ GpsRef.S)
    ∧ (GpsRef.E = GpsRef.E → 0 ≤ exifToolGpsDecimal ⟨151, 12, 30⟩ GpsRef.E) :=
  C8_gps_reference_sign ⟨33, 52, 0⟩ ⟨151, 12, 30⟩ GpsRef.S GpsRef.E
    (by norm_num) (by norm_num) (by norm_num) (by norm_num) (by norm_num) (by norm_num)
    (by simp only [exifToolGpsDecimal]; norm_num)
    (by simp only [exifToolGpsDecimal]; norm_num)

/-! ## Claim C7: HDR classification of smpte2084 -/

/-- Claim C7: a probed video stream reporting the smpte2084 color transfer
and no explicit vendor marker yields a video metadata record with the HDR
flag set and the HDR10 format name, per the priority-ordered heuristic. -/
theorem C7_smpte2084_video_hdr10 (assetId : Nat) (s : ProbedVideoStream)
    (ht : s.color_transfer = some "smpte2084")
    (hv1 : hasVendorTag s "dolby vision" = false)
    (hv2 : hasVendorTag s "hdr10+" = false) :
    (deriveVideoMetadata assetId s).is_hdr = true
    ∧ (deriveVideoMetadata assetId s).hdr_format = some "HDR10" := by
  constructor <;> simp [deriveVideoMetadata, classifyHdr, hv1, hv2, ht]

/-- Claim C7 witness: a concrete smpte2084 stream without vendor markers. -/
theorem C7_smpte2084_video_hdr10_witness :
    (deriveVideoMetadata 7
        { vendorTags := [], color_transfer := some "smpte2084",
          color_primaries := some "bt2020", genericHdrTag := false }).is_hdr = true
    ∧ (deriveVideoMetadata 7
        { vendorTags := [], color_transfer := some "smpte2084",
          color_primaries := some "bt2020", genericHdrTag := false }).hdr_format
        = some "HDR10" :=
  C7_smpte2084_video_hdr10 7
    { vendorTags := [], color_transfer := some "smpte2084",
      color_primaries := some "bt2020", genericHdrTag := false }
    rfl rfl rfl

/-! ## Claim C10: deleteFile totality -/

/-- Claim C10: StorageService.deleteFile is a total function: it answers
true exactly when the path existed and the unlink succeeded, removing the
file then; it answers false both for a missing path and for a failing
unlink, leaving the filesystem unchanged then; and the delete route still
answers success when the blob unlink fails, so a filesystem delete error is
swallowed. -/
theorem C10_deleteFile_total_and_swallowed
    (fs : SimFS) (p : String) (db : Db) (id : Nat) (asset : Asset)
    (hget : getAssetById db id = some asset)
    (hdel : (deleteAssetRows db id).2 = true) :
    ((deleteFile fs p).2 = true ↔ (p ∈ fs.files ∧ p ∉ fs.failing))
    ∧ ((deleteFile fs p).2 = true
        → (deleteFile fs p).1.files = fs.files.filter (fun q => decide (q ≠ p)))
    ∧ ((deleteFile fs p).2 = false → (deleteFile fs p).1 = fs)
    ∧ (deleteAssetHandler db fs id).2.2 = DeleteResponse.success := by
  have hcase :
      ((deleteFile fs p).2 = true ↔ (p ∈ fs.files ∧ p ∉ fs.failing))
      ∧ ((deleteFile fs p).2 = true
          → (deleteFile fs p).1.files = fs.files.filter (fun q => decide (q ≠ p)))
      ∧ ((deleteFile fs p).2 = false → (deleteFile fs p).1 = fs) := by
    unfold deleteFile unlinkSyncFS existsSyncFS
    by_cases he : p ∈ fs.files
    · by_cases hf : p ∈ fs.failing
      · simp [he, hf]
      · simp [he, hf]
    · simp [he]
  refine ⟨hcase.1, hcase.2.1, hcase.2.2, ?_⟩
  unfold deleteAssetHandler
  rw [hget]
  simp [hdel]

/-- Claim C10 witness: a database with one asset and a filesystem on which
the unlink of its blob raises; deleteFile reports false without throwing
and the delete route still answers success. -/
theorem C10_deleteFile_total_and_swallowed_witness :
    (((deleteFile ⟨["up/o/u.jpg"], ["up/o/u.jpg"]⟩ "up/o/u.jpg").2 = true
      ↔ ("up/o/u.jpg" ∈ SimFS.files ⟨["up/o/u.jpg"], ["up/o/u.jpg"]⟩
         ∧ "up/o/u.jpg" ∉ SimFS.failing ⟨["up/o/u.jpg"], ["up/o/u.jpg"]⟩))
    ∧ ((deleteFile ⟨["up/o/u.jpg"], ["up/o/u.jpg"]⟩ "up/o/u.jpg").2 = true
        → (deleteFile ⟨["up/o/u.jpg"], ["up/o/u.jpg"]⟩ "up/o/u.jpg").1.files
          = ["up/o/u.jpg"].filter (fun q => decide (q ≠ "up/o/u.jpg")))
    ∧ ((deleteFile ⟨["up/o/u.jpg"], ["up/o/u.jpg"]⟩ "up/o/u.jpg").2 = false
        → (deleteFile ⟨["up/o/u.jpg"], ["up/o/u.jpg"]⟩ "up/o/u.jpg").1
          = ⟨["up/o/u.jpg"], ["up/o/u.jpg"]⟩)
    ∧ (deleteAssetHandler
        { initDb with
            assets := [{ id := 1, original_name := "a.jpg", stored_name := "u.jpg",
                         file_path := "up/o/u.jpg", thumbnail_path := none,
                         mime_type := "image/jpeg", file_type := FileKind.image,
                         file_size := 1, width := none, height := none,
                         file_hash := some "h", created_at := 0 }],
            nextId := 2 }
        ⟨["up/o/u.jpg"], ["up/o/u.jpg"]⟩ 1).2.2 = DeleteResponse.success) :=
  C10_deleteFile_total_and_swallowed ⟨["up/o/u.jpg"], ["up/o/u.jpg"]⟩ "up/o/u.jpg"
    { initDb with
        assets := [{ id := 1, original_name := "a.jpg", stored_name := "u.jpg",
                     file_path := "up/o/u.jpg", thumbnail_path := none,
                     mime_type := "image/jpeg", file_type := FileKind.image,
                     file_size := 1, width := none, height := none,
                     file_hash := some "h", created_at := 0 }],
        nextId := 2 }
    1
    { id := 1, original_name := "a.jpg", stored_name := "u.jpg",
      file_path := "up/o/u.jpg", thumbnail_path := none,
      mime_type := "image/jpeg", file_type := FileKind.image,
      file_size := 1, width := none, height := none,
      file_hash := some "h", created_at := 0 }
    rfl rfl

/-! ## Claim C6: storage name extension -/

/-- Claim C6 counterexample: a file submitted as photo.txt whose magic
bytes are detected as image/jpeg is stored with the txt suffix taken from
the client filename, not the jpg suffix of the detected type; the detected
type is not even an input of uploadFile. -/
theorem C6_extension_counterexample :
    (uploadFile "up" ⟨2026, 10, 12⟩ "u1" "photo.txt" "tmp/t1").storedName = "u1.txt"
    ∧ getExtension "photo.txt" = ".txt"
    ∧ ("u1.txt" : String) ≠ "u1" ++ ".jpg" := by
  refine ⟨rfl, rfl, by decide⟩

/-- Claim C6 amended: the extension of the generated storage name is the
final dot suffix of the client-supplied original filename (empty when the
name has no dot); the detected MIME type plays no part in it. -/
theorem C6_extension_from_original_name (uploadDir : String) (d : CalDate)
    (uuid originalname tempPath : String) :
    (uploadFile uploadDir d uuid originalname tempPath).storedName
      = uuid ++ getExtension originalname := rfl

/-! ## Claim C4: cascade deletion of metadata rows -/

/-- A find? for a key equal to id over a list filtered to keys different
from id always misses. -/
theorem find?_eq_filter_ne {α : Type} (f : α → Nat) (id : Nat) (l : List α) :
    (l.filter (fun a => decide (f a ≠ id))).find? (fun a => decide (f a = id)) = none := by
  induction l with
  | nil => rfl
  | cons x xs ih =>
    by_cases hx : f x = id
    · simp [List.filter_cons, hx, ih]
    · simp [List.filter_cons, hx, List.find?_cons, ih]

/-- Claim C4: on the connection the program opens (foreign-key enforcement
on, per the better-sqlite3 bundled sqlite default), deleting an asset by id
removes the asset row and, through the ON DELETE CASCADE declared on
asset_exif in schema.sql, every metadata row with that asset_id: after
deleteAsset(id) neither an assets row nor an asset_exif row for that id
remains. -/
theorem C4_delete_cascades_exif_rows (db : Db) (id : Nat)
    (hfk : db.foreign_keys = true) :
    getAssetById (deleteAssetRows db id).1 id = none
    ∧ getExifByAssetId (deleteAssetRows db id).1 id = none := by
  unfold getAssetById getExifByAssetId deleteAssetRows
  simp only [hfk, if_true]
  exact ⟨find?_eq_filter_ne (fun a => a.id) id db.assets,
         find?_eq_filter_ne (fun e => e.asset_id) id db.exifRows⟩

/-- Database of the C4 witness: one asset with one exif row, on the
connection state the program opens. -/
def c4DbW : Db :=
  { initDb with
      assets := [{ id := 1, original_name := "photo.jpg", stored_name := "u.jpg",
                   file_path := "up/original/2026/10/12/u.jpg",
                   thumbnail_path := none, mime_type := "image/jpeg",
                   file_type := FileKind.image, file_size := 10,
                   width := none, height := none, file_hash := some "h1",
                   created_at := 0 }],
      exifRows := [{ asset_id := 1, exposure_time := some "1/125",
                     gps_latitude := none, gps_longitude := none }],
      nextId := 2 }

/-- Claim C4 witness: deleting asset 1 leaves no assets row and no
asset_exif row with asset_id 1. -/
theorem C4_delete_cascades_exif_rows_witness :
    getAssetById (deleteAssetRows c4DbW 1).1 1 = none
    ∧ getExifByAssetId (deleteAssetRows c4DbW 1).1 1 = none :=
  C4_delete_cascades_exif_rows c4DbW 1 rfl

/-! ## Claim C2: validation rejections -/

/-- Environment for a plain text upload: the sniffer finds no magic byte
signature. -/
def c2Env : UploadEnv :=
  { hashFn := fun bs => "sha-" ++ toString bs.length
    sniffFn := fun _ => none
    uuid := "uuid-1"
    today := ⟨2026, 10, 12⟩
    now := 1
    uploadDir := "uploads"
    procOutcome := none
    exifOutcome := none }

/-- Environment for an upload sniffed as a disallowed type. -/
def c2EnvPdf : UploadEnv :=
  { c2Env with sniffFn := fun _ => some { mime := "application/pdf", ext := "pdf" } }

/-- Server state before the text upload. -/
def c2St : ServerState :=
  { db := initDb, storedFiles := [], tempFiles := ["tmp/1-notes.txt"] }

/-- The submitted plain text file. -/
def c2File : UploadFileReq :=
  { originalname := "notes.txt", bytes := [104, 105], size := 2, tempPath := "tmp/1-notes.txt" }

/-- Claim C2, failing input evaluated: the undetectable plain text upload
and the disallowed application/pdf upload are both answered with the
generic InternalServerError, because their BadRequestError throws sit
inside the try block and the catch replaces them; the storage root and the
database are untouched, as the claim states. -/
theorem C2_rejection_surfaces_generic_error :
    (uploadHandler c2Env c2St (some c2File)).2.1
        = UploadResponse.internalError "Failed to upload file"
    ∧ (uploadHandler c2Env c2St (some c2File)).1.storedFiles = []
    ∧ (uploadHandler c2Env c2St (some c2File)).1.db = initDb
    ∧ (uploadHandler c2Env c2St (some c2File)).2.2.blobWrites = []
    ∧ (uploadHandler c2Env c2St (some c2File)).2.2.dbInserts = 0
    ∧ (uploadHandler c2EnvPdf c2St (some c2File)).2.1
        = UploadResponse.internalError "Failed to upload file"
    ∧ (uploadHandler c2EnvPdf c2St (some c2File)).1.storedFiles = []
    ∧ (uploadHandler c2EnvPdf c2St (some c2File)).2.2.dbInserts = 0
    ∧ (uploadHandler c2Env c2St none).2.1 = UploadResponse.badRequest "No file uploaded" :=
  ⟨rfl, rfl, rfl, rfl, rfl, rfl, rfl, rfl, rfl⟩

/-! ## Claim C5: thumbnail path collisions -/

/-- Environment of the first image upload of the day. -/
def c5Env1 : UploadEnv :=
  { hashFn := fun bs => "sha-" ++ toString (bs.headD 0)
    sniffFn := fun _ => some { mime := "image/jpeg", ext := "jpg" }
    uuid := "u1"
    today := ⟨2026, 10, 12⟩
    now := 1
    uploadDir := "up"
    procOutcome := some (3000, 2000)
    exifOutcome := none }

/-- Environment of the second, byte-distinct image upload the same day. -/
def c5Env2 : UploadEnv := { c5Env1 with uuid := "u2", now := 2 }

/-- Initial state for the two uploads. -/
def c5St0 : ServerState := { db := initDb, storedFiles := [], tempFiles := ["tmp/a", "tmp/b"] }

/-- First image file. -/
def c5FileA : UploadFileReq :=
  { originalname := "a.jpg", bytes := [1], size := 1, tempPath := "tmp/a" }

/-- Second image file with different bytes. -/
def c5FileB : UploadFileReq :=
  { originalname := "b.jpg", bytes := [2], size := 1, tempPath := "tmp/b" }

/-- State after the first upload. -/
def c5St1 : ServerState := (uploadHandler c5Env1 c5St0 (some c5FileA)).1

/-- Asset created by the first upload. -/
def c5AssetA : Asset :=
  { id := 1, original_name := "a.jpg", stored_name := "u1.jpg",
    file_path := "up/original/2026/10/12/u1.jpg",
    thumbnail_path := some "up/thumbnails/2026/10/12/0.jpg",
    mime_type := "image/jpeg", file_type := FileKind.image, file_size := 1,
    width := some 3000, height := some 2000, file_hash := some "sha-1",
    created_at := 1 }

/-- Asset created by the second upload. -/
def c5AssetB : Asset :=
  { id := 2, original_name := "b.jpg", stored_name := "u2.jpg",
    file_path := "up/original/2026/10/12/u2.jpg",
    thumbnail_path := some "up/thumbnails/2026/10/12/0.jpg",
    mime_type := "image/jpeg", file_type := FileKind.image, file_size := 1,
    width := some 3000, height := some 2000, file_hash := some "sha-2",
    created_at := 2 }

/-- Claim C5, failing input evaluated: two byte-distinct images uploaded
the same day are two distinct assets whose thumbnails are both computed at
the identical path named 0, because the route passes the placeholder asset
id 0 to getThumbnailPath; the second write hits a path already present in
storage, so the store does overwrite a computed path. -/
theorem C5_thumbnail_path_collision :
    (uploadHandler c5Env1 c5St0 (some c5FileA)).2.1 = UploadResponse.created c5AssetA none
    ∧ (uploadHandler c5Env2 c5St1 (some c5FileB)).2.1 = UploadResponse.created c5AssetB none
    ∧ c5AssetA.id ≠ c5AssetB.id
    ∧ c5AssetA.thumbnail_path = some "up/thumbnails/2026/10/12/0.jpg"
    ∧ c5AssetB.thumbnail_path = some "up/thumbnails/2026/10/12/0.jpg"
    ∧ "up/thumbnails/2026/10/12/0.jpg" ∈ c5St1.storedFiles
    ∧ "up/thumbnails/2026/10/12/0.jpg"
        ∈ (uploadHandler c5Env2 c5St1 (some c5FileB)).2.2.blobWrites := by
  refine ⟨rfl, rfl, by decide, rfl, rfl, by decide, by decide⟩

/-! ## Claim C3: the duplicate-hash race -/

/-- Claim C3 amended: when the insert hits the duplicate-hash unique
constraint (the race loser), the error is caught by the generic catch
block: the caller receives the generic internal error, no re-lookup or
duplicate-return recovery happens, the database is unchanged, no row was
inserted, and the already placed blob stays under the storage root. -/
theorem C3_conflict_surfaces_internal_error (env : UploadEnv) (st : ServerState)
    (file : UploadFileReq) (t : SniffedType)
    (hconf : st.db.assets.any
        (fun b => decide (b.file_hash = some (env.hashFn file.bytes))) = true) :
    (uploadAfterSniff env st file t).2.1
        = UploadResponse.internalError "Failed to upload file"
    ∧ (uploadAfterSniff env st file t).1.db = st.db
    ∧ (uploadFile env.uploadDir env.today env.uuid file.originalname file.tempPath).filePath
        ∈ (uploadAfterSniff env st file t).1.storedFiles
    ∧ (uploadAfterSniff env st file t).2.2.dbInserts = 0 := by
  simp only [uploadAfterSniff]
  split
  · split
    · unfold insertAndRespond createAsset assetInputFor
      simp [hconf, removeTemp]
    · unfold insertAndRespond createAsset assetInputFor
      simp [hconf, removeTemp]
  · unfold insertAndRespond createAsset assetInputFor
    simp [hconf, removeTemp]

/-- Environment of the race loser (a video upload, to exercise the branch
without image derivation). -/
def c3Env : UploadEnv :=
  { hashFn := fun _ => "H"
    sniffFn := fun _ => some { mime := "video/mp4", ext := "mp4" }
    uuid := "u9"
    today := ⟨2026, 10, 12⟩
    now := 3
    uploadDir := "up"
    procOutcome := none
    exifOutcome := none }

/-- The asset that the race winner inserted between the lookup of the race
loser and the insert of the race loser. -/
def c3Asset : Asset :=
  { id := 1, original_name := "w.mp4", stored_name := "w1.mp4",
    file_path := "up/original/2026/10/12/w1.mp4", thumbnail_path := none,
    mime_type := "video/mp4", file_type := FileKind.video, file_size := 1,
    width := none, height := none, file_hash := some "H", created_at := 3 }

/-- State the race loser sees at insert time: the row and the blob of the
race winner are already present. -/
def c3St : ServerState :=
  { db := { initDb with assets := [c3Asset], nextId := 2 }
    storedFiles := ["up/original/2026/10/12/w1.mp4"]
    tempFiles := ["tmp/c"] }

/-- The upload of the race loser. -/
def c3File : UploadFileReq :=
  { originalname := "v.mp4", bytes := [3], size := 1, tempPath := "tmp/c" }

/-- Claim C3 counterexample: at the concrete race state the request of the
race loser is answered with the generic internal error instead of the
duplicate-return path, and the placed blob is left in storage rather than
cleaned up. -/
theorem C3_race_counterexample :
    (uploadAfterSniff c3Env c3St c3File { mime := "video/mp4", ext := "mp4" }).2.1
        = UploadResponse.internalError "Failed to upload file"
    ∧ (uploadAfterSniff c3Env c3St c3File { mime := "video/mp4", ext := "mp4" }).1.storedFiles
        = ["up/original/2026/10/12/w1.mp4", "up/original/2026/10/12/u9.mp4"]
    ∧ (uploadAfterSniff c3Env c3St c3File { mime := "video/mp4", ext := "mp4" }).1.db.assets
        = [c3Asset] :=
  ⟨rfl, rfl, rfl⟩

/-- Claim C3 amended witness: the amended statement applied at the concrete
race state. -/
theorem C3_conflict_surfaces_internal_error_witness :
    (uploadAfterSniff c3Env c3St c3File { mime := "video/mp4", ext := "mp4" }).2.1
        = UploadResponse.internalError "Failed to upload file"
    ∧ (uploadAfterSniff c3Env c3St c3File { mime := "video/mp4", ext := "mp4" }).1.db
        = c3St.db
    ∧ (uploadFile c3Env.uploadDir c3Env.today c3Env.uuid c3File.originalname
        c3File.tempPath).filePath
        ∈ (uploadAfterSniff c3Env c3St c3File { mime := "video/mp4", ext := "mp4" }).1.storedFiles
    ∧ (uploadAfterSniff c3Env c3St c3File { mime := "video/mp4", ext := "mp4" }).2.2.dbInserts
        = 0 :=
  C3_conflict_surfaces_internal_error c3Env c3St c3File { mime := "video/mp4", ext := "mp4" } rfl

/-! ## Claim C1: deduplicated re-upload -/

/-- Inversion of the insert stage: a created answer pins down how the
asset table advanced, the hash stored on the new row, and that no
conflicting row existed at insert time. -/
theorem insertAndRespond_created_inv (env : UploadEnv) (st3 : ServerState)
    (file : UploadFileReq) (t : SniffedType) (ur : UploadResult) (fk : FileKind)
    (w h : Option Nat) (tp : Option String) (eff : Effects)
    (st4 : ServerState) (a : Asset) (e : Option ExifRow) (eff2 : Effects)
    (hrun : insertAndRespond env st3 file t ur fk w h tp eff
      = (st4, UploadResponse.created a e, eff2)) :
    st4.db.assets = st3.db.assets ++ [a]
    ∧ a.file_hash = some (env.hashFn file.bytes)
    ∧ st3.db.assets.any
        (fun b => decide (b.file_hash = some (env.hashFn file.bytes))) = false := by
  unfold insertAndRespond createAsset assetInputFor at hrun
  by_cases hconf : st3.db.assets.any
      (fun b => decide (b.file_hash = some (env.hashFn file.bytes))) = true
  · simp [hconf] at hrun
  · rw [Bool.not_eq_true] at hconf
    simp only [hconf, Bool.false_eq_true, if_false] at hrun
    cases fk with
    | image =>
      cases hex : env.exifOutcome with
      | some ef =>
        simp only [hex, Prod.mk.injEq, UploadResponse.created.injEq] at hrun
        obtain ⟨hst, ⟨ha, he⟩, heff⟩ := hrun
        subst hst
        subst ha
        exact ⟨rfl, rfl, hconf⟩
      | none =>
        simp only [hex, Prod.mk.injEq, UploadResponse.created.injEq] at hrun
        obtain ⟨hst, ⟨ha, he⟩, heff⟩ := hrun
        subst hst
        subst ha
        exact ⟨rfl, rfl, hconf⟩
    | video =>
      simp only [Prod.mk.injEq, UploadResponse.created.injEq] at hrun
      obtain ⟨hst, ⟨ha, he⟩, heff⟩ := hrun
      subst hst
      subst ha
      exact ⟨rfl, rfl, hconf⟩

/-- Inversion of the whole upload handler: a created answer implies the
request went down the full path, appending exactly one asset row carrying
the hash of the uploaded bytes, with no row holding that hash before. -/
theorem uploadHandler_created_inv (env : UploadEnv) (st0 st1 : ServerState)
    (f : UploadFileReq) (a : Asset) (e : Option ExifRow) (eff : Effects)
    (h1 : uploadHandler env st0 (some f) = (st1, UploadResponse.created a e, eff)) :
    st1.db.assets = st0.db.assets ++ [a]
    ∧ a.file_hash = some (env.hashFn f.bytes)
    ∧ st0.db.assets.any
        (fun b => decide (b.file_hash = some (env.hashFn f.bytes))) = false := by
  unfold uploadHandler at h1
  cases hfind : getAssetByHash st0.db (env.hashFn f.bytes) with
  | some b =>
    simp only [hfind] at h1
    simp at h1
  | none =>
    simp only [hfind] at h1
    cases hsn : env.sniffFn f.bytes with
    | none =>
      simp only [hsn] at h1
      simp at h1
    | some t =>
      simp only [hsn] at h1
      by_cases hmime :
          (startsWithStr t.mime "image/" || startsWithStr t.mime "video/") = true
      · rw [if_pos hmime] at h1
        simp only [uploadAfterSniff] at h1
        split at h1
        · split at h1
          · have hinv := insertAndRespond_created_inv env _ f t _ _ _ _ _ _ st1 a e eff h1
            exact hinv
          · have hinv := insertAndRespond_created_inv env _ f t _ _ _ _ _ _ st1 a e eff h1
            exact hinv
        · have hinv := insertAndRespond_created_inv env _ f t _ _ _ _ _ _ st1 a e eff h1
          exact hinv
      · rw [if_neg hmime] at h1
        simp at h1

/-- Claim C1: after a first upload was answered created, re-uploading the
identical bytes (any filename) is answered with the very asset the first
upload created, together with its exif row when it is an image, marked
duplicate; the only state change is the temp file unlink, and the effect
record is empty: no sniffing, no blob write, no image processing, no row
insertion. -/
theorem C1_duplicate_upload_short_circuit
    (env1 env2 : UploadEnv) (st0 st1 : ServerState) (f1 f2 : UploadFileReq)
    (a : Asset) (e1 : Option ExifRow) (eff1 : Effects)
    (hbytes : f2.bytes = f1.bytes)
    (hhash : env2.hashFn = env1.hashFn)
    (h1 : uploadHandler env1 st0 (some f1) = (st1, UploadResponse.created a e1, eff1)) :
    uploadHandler env2 st1 (some f2)
      = (removeTemp st1 f2.tempPath,
         UploadResponse.duplicate a
           (if a.file_type = FileKind.image then getExifByAssetId st1.db a.id else none),
         noEffects) := by
  obtain ⟨hassets, hhasha, hnone⟩ := uploadHandler_created_inv env1 st0 st1 f1 a e1 eff1 h1
  have hfind : getAssetByHash st1.db (env2.hashFn f2.bytes) = some a := by
    rw [hhash, hbytes]
    unfold getAssetByHash
    rw [hassets]
    exact find?_append_singleton _ _ _ hnone (by simp [hhasha])
  unfold uploadHandler
  simp only [hfind]
  rfl

/-- Environment of the first upload in the witness scenario. -/
def c1Env1 : UploadEnv :=
  { hashFn := fun _ => "HASH"
    sniffFn := fun _ => some { mime := "image/jpeg", ext := "jpg" }
    uuid := "u1"
    today := ⟨2026, 10, 12⟩
    now := 5
    uploadDir := "up"
    procOutcome := some (3000, 2000)
    exifOutcome := some { exposure_time := some "1/125", gps_latitude := none, gps_longitude := none } }

/-- Environment of the second upload: same hash function, fresh uuid and
clock. -/
def c1Env2 : UploadEnv := { c1Env1 with uuid := "u2", now := 6 }

/-- Initial state of the witness scenario. -/
def c1St0 : ServerState := { db := initDb, storedFiles := [], tempFiles := ["tmp/t1", "tmp/t2"] }

/-- First uploaded file. -/
def c1File1 : UploadFileReq :=
  { originalname := "a.jpg", bytes := [1, 2], size := 2, tempPath := "tmp/t1" }

/-- Second uploaded file: identical bytes under another name. -/
def c1File2 : UploadFileReq :=
  { originalname := "b.png", bytes := [1, 2], size := 2, tempPath := "tmp/t2" }

/-- State after the first upload. -/
def c1St1 : ServerState := (uploadHandler c1Env1 c1St0 (some c1File1)).1

/-- The asset the first upload creates. -/
def c1AssetW : Asset :=
  { id := 1, original_name := "a.jpg", stored_name := "u1.jpg",
    file_path := "up/original/2026/10/12/u1.jpg",
    thumbnail_path := some "up/thumbnails/2026/10/12/0.jpg",
    mime_type := "image/jpeg", file_type := FileKind.image, file_size := 2,
    width := some 3000, height := some 2000, file_hash := some "HASH",
    created_at := 5 }

/-- The exif row the first upload stores. -/
def c1ExifW : ExifRow :=
  { asset_id := 1, exposure_time := some "1/125", gps_latitude := none, gps_longitude := none }

/-- The effect record of the first upload. -/
def c1Eff1 : Effects :=
  { sniffed := true
    blobWrites := ["up/original/2026/10/12/u1.jpg", "up/thumbnails/2026/10/12/0.jpg"]
    dbInserts := 2
    imageProcessed := true }

/-- Claim C1 witness: the theorem applied to a concrete pair of uploads of
the bytes 1,2 under two different filenames. -/
theorem C1_duplicate_upload_short_circuit_witness :
    uploadHandler c1Env2 c1St1 (some c1File2)
      = (removeTemp c1St1 c1File2.tempPath,
         UploadResponse.duplicate c1AssetW
           (if c1AssetW.file_type = FileKind.image then getExifByAssetId c1St1.db c1AssetW.id
            else none),
         noEffects) :=
  C1_duplicate_upload_short_circuit c1Env1 c1Env2 c1St0 c1St1 c1File1 c1File2 c1AssetW
    (some c1ExifW) c1Eff1 rfl rfl rfl

end Lenbrary
